import Mathlib

/-!
# PackCheck — Extraction-and-Compliance Engine: formal model

A shallow embedding of the PackCheck repository's core data model and
operations.  Frontend code present in the repository
(`frontend/src/contexts/AuthContext.jsx`,
`frontend/src/contexts/GamificationContext.jsx`,
`frontend/src/pages/ScanPage.jsx`) is embedded directly from the source.
The backend engine (Fact Normalizer, Confidence Estimator, Rule Engine,
Allergen Matcher) is not part of the available sources — only its
documentation, build scripts and frontend callers are — so those
components are modelled from the specification, as marked on each
definition.
-/

namespace PackCheck

/-! ## Data model: nutrition facts

NutritionFacts is a mapping from a fixed enumerated nutrient set to an
optional numeric value in canonical units (grams; sodium in milligrams;
calories in kcal).  A nutrient that was not detected is `none`, never `0`. -/

inductive Nutrient where
  | protein | carbohydrates | fat | sugar | sodium | fiber | calories
  deriving DecidableEq, Repr

structure NutritionFacts where
  protein : Option ℚ
  carbohydrates : Option ℚ
  fat : Option ℚ
  sugar : Option ℚ
  sodium : Option ℚ
  fiber : Option ℚ
  calories : Option ℚ
  deriving DecidableEq, Repr

def emptyFacts : NutritionFacts :=
  ⟨none, none, none, none, none, none, none⟩

def getNutrient (facts : NutritionFacts) : Nutrient → Option ℚ
  | .protein => facts.protein
  | .carbohydrates => facts.carbohydrates
  | .fat => facts.fat
  | .sugar => facts.sugar
  | .sodium => facts.sodium
  | .fiber => facts.fiber
  | .calories => facts.calories

def setNutrient (facts : NutritionFacts) : Nutrient → Option ℚ → NutritionFacts
  | .protein, v => { facts with protein := v }
  | .carbohydrates, v => { facts with carbohydrates := v }
  | .fat, v => { facts with fat := v }
  | .sugar, v => { facts with sugar := v }
  | .sodium, v => { facts with sodium := v }
  | .fiber, v => { facts with fiber := v }
  | .calories, v => { facts with calories := v }

/-- The fixed enumerated nutrient set, in declaration order. -/
def allNutrients : List Nutrient :=
  [.protein, .carbohydrates, .fat, .sugar, .sodium, .fiber, .calories]

/-- Modelled from the spec: `fieldCompleteness` = fraction of the fixed
nutrient set that was successfully parsed (the Confidence Estimator is
not among the available sources). -/
def fieldCompleteness (facts : NutritionFacts) : ℚ :=
  ((allNutrients.filter (fun n => (getNutrient facts n).isSome)).length : ℚ)
    / (allNutrients.length : ℚ)

/-! ## String helpers

Case-insensitive keyword containment, used by the Rule Engine's claim
mapping ("case-insensitive keyword containment, not full NLP"). -/

def charToLower (c : Char) : Char :=
  if 'A' ≤ c && c ≤ 'Z' then Char.ofNat (c.toNat + 32) else c

def lowerChars (s : String) : List Char := s.toList.map charToLower

def startsAt : List Char → List Char → Bool
  | _, [] => true
  | [], _ :: _ => false
  | c :: cs, p :: ps => c == p && startsAt cs ps

def containsSub : List Char → List Char → Bool
  | [], pat => pat.isEmpty
  | c :: rest, pat => startsAt (c :: rest) pat || containsSub rest pat

def containsKeyword (text pat : String) : Bool :=
  containsSub (lowerChars text) (lowerChars pat)

/-! ## Standard rules (Rule Engine)

Modelled from the spec: the Rule Engine itself is not among the available
sources; its rule table contents come from the repository's README
("FSSAI Standards Implemented": High Protein ≥10 g/serving, Source of
Protein ≥5 g/serving, Low Sugar ≤5 g/100g, Sugar Free ≤0.5 g/100g,
Low Fat ≤3 g/100g, Fat Free ≤0.5 g/100g). -/

inductive Comparator where
  | le | ge | eq
  deriving DecidableEq, Repr

inductive ThresholdBasis where
  | perServing | per100g
  deriving DecidableEq, Repr

inductive RuleSource where
  | FSSAI | WHO
  deriving DecidableEq, Repr

structure StandardRule where
  id : String
  appliesToClaim : String
  nutrient : Nutrient
  comparator : Comparator
  thresholdValue : ℚ
  basis : ThresholdBasis
  source : RuleSource
  deriving DecidableEq, Repr

def highProteinRule : StandardRule :=
  ⟨"high_protein", "high protein", .protein, .ge, 10, .perServing, .FSSAI⟩

def sourceProteinRule : StandardRule :=
  ⟨"source_protein", "source of protein", .protein, .ge, 5, .perServing, .FSSAI⟩

def lowSugarRule : StandardRule :=
  ⟨"low_sugar", "low sugar", .sugar, .le, 5, .per100g, .FSSAI⟩

def sugarFreeRule : StandardRule :=
  ⟨"sugar_free", "sugar free", .sugar, .le, 1/2, .per100g, .FSSAI⟩

def lowFatRule : StandardRule :=
  ⟨"low_fat", "low fat", .fat, .le, 3, .per100g, .FSSAI⟩

def fatFreeRule : StandardRule :=
  ⟨"fat_free", "fat free", .fat, .le, 1/2, .per100g, .FSSAI⟩

def ruleTable : List StandardRule :=
  [highProteinRule, sourceProteinRule, lowSugarRule, sugarFreeRule,
   lowFatRule, fatFreeRule]

structure ServingInfo where
  servingSize : Option ℚ
  netWeight : Option ℚ
  servingsPerContainer : Option ℚ
  deriving DecidableEq, Repr

/-- Per-claim verdict `{compliant, message, ruleId}`. -/
structure ClaimVerdict where
  compliant : Bool
  message : String
  ruleId : String
  deriving DecidableEq, Repr

/-- A processed claim: `verdict = none` means the claim stayed Unmapped;
`verdict = some v` means it reached the Evaluated state. -/
structure ClaimResult where
  claimText : String
  verdict : Option ClaimVerdict
  deriving DecidableEq, Repr

/-- Modelled from the spec: claim text is matched case-insensitively
against `appliesToClaim` patterns; first matching rule wins. -/
def mapClaim (claim : String) : Option StandardRule :=
  ruleTable.find? (fun r => containsKeyword claim r.appliesToClaim)

/-- Modelled from the spec: inclusive tie-break — a value exactly equal
to the threshold is compliant for ≤ and ≥. -/
def compareValue : Comparator → ℚ → ℚ → Bool
  | .le, v, t => decide (v ≤ t)
  | .ge, v, t => decide (t ≤ v)
  | .eq, v, t => decide (v = t)

/-- Modelled from the spec: normalized facts are per-serving; a per-100g
rule needs a known, positive serving size to convert, otherwise the
basis is indeterminate (`none`). -/
def basisValue (r : StandardRule) (si : ServingInfo) (v : ℚ) : Option ℚ :=
  match r.basis with
  | .perServing => some v
  | .per100g =>
    match si.servingSize with
    | some s => if 0 < s then some (v * 100 / s) else none
    | none => none

/-- Modelled from the spec: an absent nutrient value, or an indeterminate
conversion basis, is surfaced as `compliant = false` with an explicit
message — never silently substituted with 0. -/
def evaluateRule (r : StandardRule) (facts : NutritionFacts) (si : ServingInfo) :
    ClaimVerdict :=
  match getNutrient facts r.nutrient with
  | none => ⟨false, "nutrient value not detected; cannot evaluate", r.id⟩
  | some v =>
    match basisValue r si v with
    | none => ⟨false, "threshold basis indeterminate", r.id⟩
    | some bv =>
      if compareValue r.comparator bv r.thresholdValue
      then ⟨true, "claim compliant", r.id⟩
      else ⟨false, "claim not compliant", r.id⟩

/-- Modelled from the spec: `Unmapped → Mapped → Evaluated`; an unmapped
claim is recorded with no verdict. -/
def processClaim (facts : NutritionFacts) (si : ServingInfo) (claim : String) :
    ClaimResult :=
  match mapClaim claim with
  | none => ⟨claim, none⟩
  | some r => ⟨claim, some (evaluateRule r facts si)⟩

def evaluatedVerdicts (results : List ClaimResult) : List ClaimVerdict :=
  results.filterMap (·.verdict)

/-! ## Confidence Estimator (modelled from the spec) -/

structure ConfidenceVector where
  textClarity : ℚ
  fieldCompleteness : ℚ
  numericConsistency : ℚ
  overall : ℚ
  deriving DecidableEq, Repr

/-- Modelled from the spec: the single documented weight triple
(0.4 / 0.3 / 0.3) for `overall`. -/
def clarityWeight : ℚ := 2/5

def completenessWeight : ℚ := 3/10

def consistencyWeight : ℚ := 3/10

def overallScore (tc fc nc : ℚ) : ℚ :=
  clarityWeight * tc + completenessWeight * fc + consistencyWeight * nc

def mkConfidenceVector (tc fc nc : ℚ) : ConfidenceVector :=
  ⟨tc, fc, nc, overallScore tc fc nc⟩

/-- Fixed per-gram energy constants: 4 kcal/g protein, 4 kcal/g
carbohydrate, 9 kcal/g fat. -/
def energyKcal (p c f : ℚ) : ℚ := 4 * p + 4 * c + 9 * f

/-- Modelled from the spec: the energy-balance constraint is violated when
the declared calories deviate from the macro-derived energy by more than
the ±10% tolerance band.  Applicable only when all four values are
present. -/
def energyViolated (facts : NutritionFacts) : Bool :=
  match facts.protein, facts.carbohydrates, facts.fat, facts.calories with
  | some p, some c, some f, some cal =>
    decide (energyKcal p c f / 10 < |cal - energyKcal p c f|)
  | _, _, _, _ => false

/-- Modelled from the spec: a second physical constraint — sugar cannot
exceed total carbohydrates. -/
def sugarViolated (facts : NutritionFacts) : Bool :=
  match facts.sugar, facts.carbohydrates with
  | some s, some c => decide (c < s)
  | _, _ => false

/-- Cap factor applied when the energy-balance constraint is violated. -/
def energyViolationFactor : ℚ := 1/2

/-- Cap factor applied when the sugar/carbohydrate constraint is violated. -/
def sugarViolationFactor : ℚ := 1/2

/-- Modelled from the spec: each violated constraint caps the sub-score;
multiple violations compound multiplicatively, never below 0. -/
def numericConsistency (facts : NutritionFacts) : ℚ :=
  (if energyViolated facts then energyViolationFactor else 1) *
  (if sugarViolated facts then sugarViolationFactor else 1)

/-! ## Aggregation (modelled from the spec) -/

structure VerificationResult where
  results : List ClaimResult
  trustScore : ℚ
  overallCompliance : Bool
  recommendations : List String
  deriving DecidableEq, Repr

/-- Fraction of Evaluated claims that are compliant (0 when no claim was
evaluated, by rational division convention). -/
def compliantFraction (results : List ClaimResult) : ℚ :=
  (((evaluatedVerdicts results).filter (·.compliant)).length : ℚ)
    / ((evaluatedVerdicts results).length : ℚ)

/-- Modelled from the spec: trust = compliant fraction scaled by
`ConfidenceVector.overall`. -/
def trustScore (results : List ClaimResult) (conf : ConfidenceVector) : ℚ :=
  compliantFraction results * conf.overall

/-- The fixed trust floor (0.5). -/
def trustFloor : ℚ := 1/2

/-- Modelled from the spec: `overallCompliance` is true only if every
Evaluated claim is compliant AND the trust score meets the floor. -/
def overallCompliance (results : List ClaimResult) (conf : ConfidenceVector) :
    Bool :=
  (evaluatedVerdicts results).all (·.compliant) &&
    decide (trustFloor ≤ trustScore results conf)

def recommendations (results : List ClaimResult) : List String :=
  results.filterMap fun r =>
    match r.verdict with
    | some v =>
      if v.compliant then none else some ("Review claim: " ++ r.claimText)
    | none => some ("Unrecognized claim: " ++ r.claimText)

/-- Modelled from the spec: the Rule Engine's full output on normalized
facts, serving info, caller-supplied claims and the confidence vector. -/
def verifyClaims (facts : NutritionFacts) (si : ServingInfo)
    (claims : List String) (conf : ConfidenceVector) : VerificationResult :=
  ⟨claims.map (processClaim facts si),
   trustScore (claims.map (processClaim facts si)) conf,
   overallCompliance (claims.map (processClaim facts si)) conf,
   recommendations (claims.map (processClaim facts si))⟩

/-! ## Allergen Matcher (modelled from the spec) -/

inductive MatchKind where
  | exactMatch | synonymMatch
  deriving DecidableEq, Repr

structure AllergenMatch where
  allergenName : String
  matchedIngredientToken : String
  matchKind : MatchKind
  deriving DecidableEq, Repr

/-- Modelled from the spec: the static known-allergen dictionary with
synonyms, loaded once at startup (the loader and exact contents are not
among the available sources; entries follow the repository's examples:
wheat and milk appear in the documented scan response). -/
def allergenDict : List (String × List String) :=
  [("milk", ["casein", "whey", "butter", "cream"]),
   ("wheat", ["gluten", "flour", "maida"]),
   ("peanut", ["groundnut", "peanuts"]),
   ("soy", ["soya", "soybean"]),
   ("egg", ["albumin", "egg white"])]

/-- Modelled from the spec: exact-token and synonym-table matching only
(no fuzzy distance matching). -/
def matchToken (token : String) : List AllergenMatch :=
  allergenDict.filterMap fun entry =>
    if lowerChars token == lowerChars entry.1 then
      some ⟨entry.1, token, .exactMatch⟩
    else if entry.2.any (fun s => lowerChars token == lowerChars s) then
      some ⟨entry.1, token, .synonymMatch⟩
    else none

def matchAllergens (tokens : List String) : List AllergenMatch :=
  tokens.foldr (fun t acc => matchToken t ++ acc) []

/-- Modelled from the spec: the aggregate result object returned to the
caller.  The allergen matches depend only on the ingredient tokens —
construction never consults the confidence vector for them. -/
structure ScanResult where
  nutrition : NutritionFacts
  serving : ServingInfo
  ingredients : List String
  confidence : ConfidenceVector
  verification : VerificationResult
  allergensDetected : List AllergenMatch
  deriving DecidableEq, Repr

def aggregateResult (facts : NutritionFacts) (si : ServingInfo)
    (ingredients : List String) (claims : List String)
    (conf : ConfidenceVector) : ScanResult :=
  ⟨facts, si, ingredients, conf, verifyClaims facts si claims conf,
   matchAllergens ingredients⟩

/-! ## Documented API response shape

From `docs/API.md`, `POST /api/scan/` response: the `confidence` object
inside `ocr_results` is documented with exactly these keys. -/

def apiConfidenceComponents : List String :=
  ["overall", "text_clarity", "regulatory_compliance"]

/-- The four component names the specification assigns to
`ConfidenceVector`. -/
def specConfidenceComponents : List String :=
  ["textClarity", "fieldCompleteness", "numericConsistency", "overall"]

/-! ## Frontend: ScanPage.jsx render helpers (embedded from source) -/

def charToUpper (c : Char) : Char :=
  if 'a' ≤ c && c ≤ 'z' then Char.ofNat (c.toNat - 32) else c

/-- Embedded from `ScanPage.jsx`:
`key.charAt(0).toUpperCase() + key.slice(1)`. -/
def capitalizeKey (s : String) : String :=
  match s.toList with
  | [] => ""
  | c :: rest => String.mk (charToUpper c :: rest)

/-- Embedded from `ScanPage.jsx` (nutrition chip in the scan result):
the label template is
`key.charAt(0).toUpperCase() + key.slice(1) + ": " + value + (key === "sodium" ? "mg" : "g")`
— every nutrient except sodium gets a `"g"` suffix. -/
def nutritionChipLabel (key : String) (value : Nat) : String :=
  capitalizeKey key ++ ": " ++ toString value ++
    (if key == "sodium" then "mg" else "g")

/-- Embedded from `ScanPage.jsx` (allergen warning block): the warning is
rendered exactly when `allergens_detected.length > 0`; no confidence
value appears in the condition. -/
def showAllergenWarning (detected : List String) : Bool :=
  decide (0 < detected.length)

/-! ## Frontend: AuthContext.jsx (embedded from source) -/

structure DailyGoals where
  calories : ℚ
  protein : ℚ
  carbs : ℚ
  fat : ℚ
  fiber : ℚ
  sodium : ℚ
  deriving DecidableEq, Repr

/-- Embedded from `AuthContext.jsx` `signup`: the `dailyGoals` object
given to every new user. -/
def defaultDailyGoals : DailyGoals := ⟨2000, 50, 250, 70, 25, 2000⟩

structure Preferences where
  dietType : String
  allergies : List String
  restrictions : List String
  fitnessGoal : String
  deriving DecidableEq, Repr

/-- Embedded from `AuthContext.jsx` `signup`: the `preferences` object
given to every new user. -/
def defaultPreferences : Preferences := ⟨"balanced", [], [], "maintain"⟩

/-- The fields collected by `SignupPage` and spread into the new user. -/
structure SignupInput where
  name : String
  email : String
  password : String
  age : String
  weight : String
  height : String
  fitnessGoal : String
  deriving DecidableEq, Repr

/-- A nutrition object passed to `updateDailyIntake`; a field the scan
did not produce is absent (`none`). -/
structure NutritionInput where
  calories : Option ℚ
  protein : Option ℚ
  carbohydrates : Option ℚ
  fat : Option ℚ
  fiber : Option ℚ
  sodium : Option ℚ
  deriving DecidableEq, Repr

/-- The six numeric running totals of one day's intake
(`todayIntake.calories`, …, `todayIntake.sodium`). -/
structure DayTotals where
  calories : ℚ
  protein : ℚ
  carbs : ℚ
  fat : ℚ
  fiber : ℚ
  sodium : ℚ
  deriving DecidableEq, Repr

def emptyDayTotals : DayTotals := ⟨0, 0, 0, 0, 0, 0⟩

/-- Embedded from `AuthContext.jsx` `updateDailyIntake` (the `updatedIntake`
object): each running total is updated as
`(todayIntake.X || 0) + (nutrition.X || 0)` — an absent nutrition value
contributes `0`.  (The source additionally appends the raw nutrition
object to an `items` array; the numeric totals modelled here are what
the dashboard consumers read.) -/
def addDailyIntake (t : DayTotals) (n : NutritionInput) : DayTotals :=
  ⟨t.calories + n.calories.getD 0,
   t.protein + n.protein.getD 0,
   t.carbs + n.carbohydrates.getD 0,
   t.fat + n.fat.getD 0,
   t.fiber + n.fiber.getD 0,
   t.sodium + n.sodium.getD 0⟩

structure UserRec where
  id : String
  name : String
  email : String
  password : String
  age : String
  weight : String
  height : String
  fitnessGoal : String
  createdAt : String
  dailyGoals : DailyGoals
  preferences : Preferences
  history : List String
  dailyIntake : List (String × DayTotals)
  deriving DecidableEq, Repr

/-- The authentication state: the stored users list
(`localStorage packcheck_users`) and the current user
(`packcheck_user` / React state). -/
structure AuthState where
  users : List UserRec
  currentUser : Option UserRec
  deriving DecidableEq, Repr

/-- Embedded from `AuthContext.jsx` `signup`: the new user record built
from the signup input (`id` is `Date.now().toString()` and `createdAt`
the current ISO timestamp, both passed in as parameters here). -/
def mkNewUser (input : SignupInput) (newId createdAt : String) : UserRec :=
  ⟨newId, input.name, input.email, input.password, input.age, input.weight,
   input.height, input.fitnessGoal, createdAt, defaultDailyGoals,
   defaultPreferences, [], []⟩

/-- Embedded from `AuthContext.jsx` `signup`: if a stored user already has
the given email, throw `"Email already exists"` before any store is
touched; otherwise push the new user onto the stored list and set it as
the current user. -/
def signup (st : AuthState) (input : SignupInput) (newId createdAt : String) :
    AuthState × Except String UserRec :=
  if st.users.any (fun u => u.email == input.email) then
    (st, Except.error "Email already exists")
  else
    (⟨st.users ++ [mkNewUser input newId createdAt],
      some (mkNewUser input newId createdAt)⟩,
     Except.ok (mkNewUser input newId createdAt))

/-! ## Frontend: GamificationContext.jsx (embedded from source) -/

structure Achievement where
  id : String
  name : String
  description : String
  points : Nat
  icon : String
  deriving DecidableEq, Repr

/-- Embedded from `GamificationContext.jsx`: the `ACHIEVEMENTS` table. -/
def ACHIEVEMENTS : List Achievement :=
  [⟨"first_scan", "First Steps", "Scan your first product", 10, "🎯"⟩,
   ⟨"scan_5", "Scanner", "Scan 5 products", 25, "📸"⟩,
   ⟨"scan_10", "Product Hunter", "Scan 10 products", 50, "🔍"⟩,
   ⟨"scan_50", "Label Master", "Scan 50 products", 200, "👑"⟩,
   ⟨"streak_3", "Consistent", "3 day streak", 30, "🔥"⟩,
   ⟨"streak_7", "Week Warrior", "7 day streak", 70, "⚡"⟩,
   ⟨"streak_30", "Monthly Legend", "30 day streak", 300, "🏆"⟩,
   ⟨"goal_met", "Goal Getter", "Meet all daily goals", 50, "✨"⟩,
   ⟨"goal_week", "Weekly Champion", "Meet goals for 7 days", 150, "💪"⟩,
   ⟨"protein_king", "Protein King", "Hit protein goal 10 times", 100, "🥩"⟩,
   ⟨"healthy_choice", "Healthy Choice", "Scan 10 compliant products", 80,
    "🥗"⟩]

structure GamStats where
  totalScans : Nat
  goalsMetDays : Nat
  proteinGoalsHit : Nat
  compliantProducts : Nat
  deriving DecidableEq, Repr

/-- The per-user gamification state (`user.gamification`). -/
structure Gamification where
  points : Nat
  level : Nat
  achievements : List String
  streak : Nat
  lastActive : String
  stats : GamStats
  deriving DecidableEq, Repr

/-- Embedded from `GamificationContext.jsx` `unlockAchievement`: an id
matching no defined achievement, or one already contained in
`achievements`, leaves the state unchanged; otherwise the id is appended
and the achievement's points are added. -/
def unlockAchievement (g : Gamification) (achievementId : String) :
    Gamification :=
  match ACHIEVEMENTS.find? (fun a => a.id == achievementId) with
  | none => g
  | some a =>
    if g.achievements.contains achievementId then g
    else { g with achievements := g.achievements ++ [achievementId],
                  points := g.points + a.points }

/-! ## Verified properties -/

lemma mapClaim_high_protein : mapClaim "high protein" = some highProteinRule := by
  decide

/-- Claim C1: for every NutritionFacts value with protein ≥ 10 g per
serving and a supplied claim string "high protein", the Rule Engine
reports that claim compliant; the threshold boundary is inclusive
(protein = 10 is compliant). -/
theorem C1_high_protein_compliant (facts : NutritionFacts) (si : ServingInfo)
    (p : ℚ) (hp : facts.protein = some p) (h10 : 10 ≤ p) :
    (processClaim facts si "high protein").verdict =
      some ⟨true, "claim compliant", "high_protein"⟩ := by
  simp only [processClaim, mapClaim_high_protein]
  simp [evaluateRule, highProteinRule, getNutrient, hp, basisValue,
    compareValue, h10]

def proteinTenFacts : NutritionFacts :=
  { emptyFacts with protein := some 10 }

def noServing : ServingInfo := ⟨none, none, none⟩

/-- Witness for C1 at the inclusive boundary protein = 10. -/
theorem C1_high_protein_compliant_witness :
    (processClaim proteinTenFacts noServing "high protein").verdict =
      some ⟨true, "claim compliant", "high_protein"⟩ :=
  C1_high_protein_compliant proteinTenFacts noServing 10 rfl (le_refl 10)

/-- Claim C2: `overallCompliance` of the Rule Engine's output is true iff
every claim that reached the Evaluated state is individually compliant
and the trust score meets the fixed 0.5 floor; in particular a fixture
whose only claim is nominally compliant but whose confidence overall is
0.1 yields `overallCompliance = false`. -/
theorem C2_overall_compliance_iff :
    (∀ (facts : NutritionFacts) (si : ServingInfo) (claims : List String)
       (conf : ConfidenceVector),
       (verifyClaims facts si claims conf).overallCompliance = true ↔
         ((∀ v ∈ evaluatedVerdicts (claims.map (processClaim facts si)),
             v.compliant = true) ∧
          trustFloor ≤ (verifyClaims facts si claims conf).trustScore)) ∧
    (verifyClaims { emptyFacts with protein := some 15 } noServing
        ["high protein"] ⟨1/10, 1/10, 1/10, 1/10⟩).overallCompliance
      = false := by
  constructor
  · intro facts si claims conf
    simp [verifyClaims, overallCompliance, List.all_eq_true,
      decide_eq_true_iff]
  · have hmap : processClaim { emptyFacts with protein := some 15 } noServing
        "high protein" =
        ⟨"high protein", some ⟨true, "claim compliant", "high_protein"⟩⟩ := by
      simp only [processClaim, mapClaim_high_protein]
      norm_num [evaluateRule, highProteinRule, getNutrient, basisValue,
        compareValue]
    norm_num [verifyClaims, overallCompliance, hmap, evaluatedVerdicts,
      trustScore, compliantFraction, trustFloor, List.filterMap_cons,
      List.filter_cons]

/-- Claim C8: the Rule Engine is deterministic and idempotent — on
identical normalized facts, serving info, claims and confidence it
yields identical VerificationResult output (per-claim verdicts, trust
score, overall compliance, recommendations); the model contains no
source of randomness or hidden state. -/
theorem C8_rule_engine_deterministic (facts facts' : NutritionFacts)
    (si si' : ServingInfo) (claims claims' : List String)
    (conf conf' : ConfidenceVector) (h1 : facts = facts') (h2 : si = si')
    (h3 : claims = claims') (h4 : conf = conf') :
    verifyClaims facts si claims conf =
      verifyClaims facts' si' claims' conf' := by
  rw [h1, h2, h3, h4]

/-- Witness for C8: two runs on the same concrete inputs agree. -/
theorem C8_rule_engine_deterministic_witness :
    verifyClaims proteinTenFacts noServing ["high protein"]
        (mkConfidenceVector 1 1 1) =
      verifyClaims proteinTenFacts noServing ["high protein"]
        (mkConfidenceVector 1 1 1) :=
  C8_rule_engine_deterministic proteinTenFacts proteinTenFacts noServing
    noServing ["high protein"] ["high protein"] (mkConfidenceVector 1 1 1)
    (mkConfidenceVector 1 1 1) rfl rfl rfl rfl

/-- Claim C5: the aggregate result's detected-allergen list is exactly the
Allergen Matcher's output on the ingredient tokens — it does not depend
on the confidence vector — so whenever at least one token matches the
dictionary the output is non-empty for every confidence vector,
including `overall = 0`, and the frontend warning (which tests only
non-emptiness) is shown. -/
theorem C5_allergens_never_suppressed (facts : NutritionFacts)
    (si : ServingInfo) (ingredients claims : List String)
    (conf : ConfidenceVector) :
    ((aggregateResult facts si ingredients claims conf).allergensDetected
        = matchAllergens ingredients) ∧
    (matchAllergens ingredients ≠ [] →
      (aggregateResult facts si ingredients claims conf).allergensDetected
        ≠ []) ∧
    (matchAllergens ingredients ≠ [] →
      showAllergenWarning
        (((aggregateResult facts si ingredients claims conf).allergensDetected).map
          (·.allergenName)) = true) := by
  refine ⟨rfl, fun h => h, fun h => ?_⟩
  simp [showAllergenWarning, aggregateResult, List.length_pos]
  exact h

/-- The all-zero confidence vector (a fully unreadable label). -/
def zeroConfidence : ConfidenceVector := ⟨0, 0, 0, 0⟩

/-- Witness for C5: the ingredient token "milk" matches the dictionary, so
the aggregate result reports it even at `overall = 0`. -/
theorem C5_allergens_never_suppressed_witness :
    (aggregateResult emptyFacts noServing ["milk"] [] zeroConfidence).allergensDetected
      ≠ [] :=
  (C5_allergens_never_suppressed emptyFacts noServing ["milk"] []
    zeroConfidence).2.1 (by decide)

/-- Facts whose declared calories exactly satisfy the energy balance
4·10 + 4·20 + 9·5 = 165 kcal. -/
def energyBalancedFacts : NutritionFacts :=
  ⟨some 10, some 20, some 5, none, none, none, some 165⟩

/-- The same macros with the declared calories replaced by `c`. -/
def perturbedCaloriesFacts (c : ℚ) : NutritionFacts :=
  ⟨some 10, some 20, some 5, none, none, none, some c⟩

/-- Claim C4: `numericConsistency` is 1 for facts
{protein 10, carbohydrates 20, fat 5, calories 165} (energy balance
exactly satisfied); any perturbation of calories by more than 10% of the
computed energy (16.5 kcal) makes it strictly lower than 1; and the
sub-score is never below 0, regardless of how many constraints are
violated. -/
theorem C4_numeric_consistency :
    numericConsistency energyBalancedFacts = 1 ∧
    (∀ c : ℚ, 33/2 < |c - 165| →
      numericConsistency (perturbedCaloriesFacts c) < 1) ∧
    (∀ facts : NutritionFacts, 0 ≤ numericConsistency facts) := by
  refine ⟨?_, fun c h => ?_, fun facts => ?_⟩
  · norm_num [numericConsistency, energyViolated, sugarViolated,
      energyBalancedFacts, energyKcal]
  · have hv : energyViolated (perturbedCaloriesFacts c) = true := by
      simp only [energyViolated, perturbedCaloriesFacts, energyKcal]
      norm_num
      linarith
    simp only [numericConsistency, hv]
    norm_num [sugarViolated, perturbedCaloriesFacts, energyViolationFactor]
  · unfold numericConsistency
    split_ifs <;>
      norm_num [energyViolationFactor, sugarViolationFactor]

/-- Witness for C4: calories 200 deviates from 165 by 35 > 16.5, so the
sub-score drops strictly below 1. -/
theorem C4_numeric_consistency_witness :
    numericConsistency (perturbedCaloriesFacts 200) < 1 :=
  C4_numeric_consistency.2.1 200 (by norm_num)

lemma length_filter_le_of_imp {α : Type} (p q : α → Bool) (l : List α)
    (h : ∀ a ∈ l, p a = true → q a = true) :
    (l.filter p).length ≤ (l.filter q).length := by
  induction l with
  | nil => simp
  | cons a l ih =>
    have ih' := ih (fun b hb hpb => h b (List.mem_cons_of_mem a hb) hpb)
    by_cases hp : p a = true
    · have hq := h a (List.mem_cons_self a l) hp
      simpa [List.filter_cons, hp, hq] using ih'
    · have hp' : p a = false := by simpa using hp
      by_cases hq : q a = true
      · simp only [List.filter_cons, hp', hq, List.length_cons]
        exact le_trans ih' (Nat.le_succ _)
      · have hq' : q a = false := by simpa using hq
        simpa [List.filter_cons, hp', hq'] using ih'

lemma length_filter_lt_of_mem {α : Type} (p q : α → Bool) (l : List α)
    (h : ∀ a ∈ l, p a = true → q a = true) (a0 : α) (ha0 : a0 ∈ l)
    (hp0 : p a0 = false) (hq0 : q a0 = true) :
    (l.filter p).length < (l.filter q).length := by
  induction l with
  | nil => cases ha0
  | cons a l ih =>
    have h' : ∀ b ∈ l, p b = true → q b = true :=
      fun b hb hpb => h b (List.mem_cons_of_mem a hb) hpb
    have hmono := length_filter_le_of_imp p q l h'
    rcases List.mem_cons.mp ha0 with rfl | ha0'
    · simp only [List.filter_cons, hp0, hq0, List.length_cons]
      simp only [Bool.false_eq_true, if_false, if_true]
      exact Nat.lt_succ_of_le hmono
    · have ih' := ih h' ha0'
      by_cases hp : p a = true
      · have hq := h a (List.mem_cons_self a l) hp
        simpa [List.filter_cons, hp, hq] using ih'
      · have hp' : p a = false := by simpa using hp
        by_cases hq : q a = true
        · simp only [List.filter_cons, hp', hq, List.length_cons]
          simp only [Bool.false_eq_true, if_false, if_true]
          exact Nat.lt_succ_of_lt ih'
        · have hq' : q a = false := by simpa using hq
          simpa [List.filter_cons, hp', hq'] using ih'

lemma getNutrient_setNutrient_none (facts : NutritionFacts) (n m : Nutrient) :
    getNutrient (setNutrient facts n none) m =
      if m = n then none else getNutrient facts m := by
  cases n <;> cases m <;> simp [getNutrient, setNutrient]

/-- Claim C3 (amended): in NutritionFacts an undetected nutrient is
`none`, never `0`; the Rule Engine never substitutes 0 for it (an absent
nutrient always evaluates non-compliant, with an explicit message); and
removing a present nutrient strictly decreases `fieldCompleteness`.
(The frontend daily-intake accumulator, by contrast, does collapse
absent to 0 — see the counterexample.) -/
theorem C3_absent_never_zero :
    (∀ (facts : NutritionFacts) (si : ServingInfo) (r : StandardRule),
      getNutrient facts r.nutrient = none →
        (evaluateRule r facts si).compliant = false) ∧
    (∀ (facts : NutritionFacts) (n : Nutrient) (v : ℚ),
      getNutrient facts n = some v →
        fieldCompleteness (setNutrient facts n none) <
          fieldCompleteness facts) := by
  constructor
  · intro facts si r h
    simp [evaluateRule, h]
  · intro facts n v h
    have key := length_filter_lt_of_mem
      (fun m => (getNutrient (setNutrient facts n none) m).isSome)
      (fun m => (getNutrient facts m).isSome) allNutrients
      (by
        intro m _ hm
        simp only [getNutrient_setNutrient_none] at hm
        by_cases hmn : m = n
        · simp [hmn] at hm
        · simpa [hmn] using hm)
      n (by cases n <;> simp [allNutrients])
      (by simp [getNutrient_setNutrient_none])
      (by simp [h])
    unfold fieldCompleteness
    have h7 : (0 : ℚ) < (allNutrients.length : ℚ) := by norm_num [allNutrients]
    rw [div_lt_div_iff₀ h7 h7]
    have key' :
        (((allNutrients.filter
            (fun m => (getNutrient (setNutrient facts n none) m).isSome)).length : ℚ)) <
        (((allNutrients.filter
            (fun m => (getNutrient facts m).isSome)).length : ℚ)) := by
      exact_mod_cast key
    exact mul_lt_mul_of_pos_right key' h7

/-- Witness for C3: with sugar undetected, the "low sugar" rule (≤ 5 g,
which the value 0 would satisfy) still evaluates non-compliant — 0 is
not substituted — and completeness strictly drops when protein is
removed from a facts record that has it. -/
theorem C3_absent_never_zero_witness :
    (evaluateRule lowSugarRule emptyFacts noServing).compliant = false ∧
    fieldCompleteness (setNutrient proteinTenFacts .protein none) <
      fieldCompleteness proteinTenFacts :=
  ⟨C3_absent_never_zero.1 emptyFacts noServing lowSugarRule rfl,
   C3_absent_never_zero.2 proteinTenFacts .protein 10 rfl⟩

/-- A scanned nutrition object whose protein was not detected. -/
def proteinAbsentNutrition : NutritionInput :=
  ⟨some 100, none, some 20, some 5, none, none⟩

/-- The same nutrition object with protein detected as exactly 0. -/
def proteinZeroNutrition : NutritionInput :=
  ⟨some 100, some 0, some 20, some 5, none, none⟩

/-- Counterexample to claim C3 as stated: the distinction between an
absent nutrient and the value 0 is NOT preserved by every downstream
consumer.  The frontend daily-intake accumulator
(`AuthContext.jsx` `updateDailyIntake`) adds `(nutrition.X || 0)` to each
running total, so a nutrition object with protein undetected updates the
day's totals identically to one with protein = 0. -/
theorem C3_counterexample :
    addDailyIntake emptyDayTotals proteinAbsentNutrition =
      addDailyIntake emptyDayTotals proteinZeroNutrition := rfl

/-- Claim C9: signup with an email already present among the stored users
throws "Email already exists" and leaves the stored users list and the
current-user state unchanged; signup with a fresh email appends exactly
one new user record and sets it as the current user. -/
theorem C9_signup (st : AuthState) (input : SignupInput)
    (newId createdAt : String) :
    ((∃ u ∈ st.users, u.email = input.email) →
      signup st input newId createdAt =
        (st, Except.error "Email already exists")) ∧
    ((∀ u ∈ st.users, u.email ≠ input.email) →
      signup st input newId createdAt =
        (⟨st.users ++ [mkNewUser input newId createdAt],
          some (mkNewUser input newId createdAt)⟩,
         Except.ok (mkNewUser input newId createdAt))) := by
  constructor
  · rintro ⟨u, hu, he⟩
    have hany : st.users.any (fun u => u.email == input.email) = true :=
      List.any_eq_true.mpr ⟨u, hu, by simp [he]⟩
    simp [signup, hany]
  · intro h
    have hany : st.users.any (fun u => u.email == input.email) = false := by
      rw [Bool.eq_false_iff]
      intro hc
      obtain ⟨u, hu, he⟩ := List.any_eq_true.mp hc
      exact h u hu (by simpa using he)
    simp [signup, hany]

def witnessUser : UserRec := mkNewUser
  ⟨"Asha", "asha@example.com", "pw", "30", "60", "165", "maintain"⟩ "1" "t1"

def witnessAuthState : AuthState := ⟨[witnessUser], some witnessUser⟩

def duplicateSignupInput : SignupInput :=
  ⟨"Other", "asha@example.com", "pw2", "25", "70", "175", "maintain"⟩

def freshSignupInput : SignupInput :=
  ⟨"Ben", "ben@example.com", "pw3", "40", "80", "180", "bulk"⟩

/-- Witness for C9: a duplicate email errors and leaves the state intact;
a fresh email appends the one new record and signs it in. -/
theorem C9_signup_witness :
    signup witnessAuthState duplicateSignupInput "2" "t2" =
      (witnessAuthState, Except.error "Email already exists") ∧
    signup witnessAuthState freshSignupInput "3" "t3" =
      (⟨witnessAuthState.users ++ [mkNewUser freshSignupInput "3" "t3"],
        some (mkNewUser freshSignupInput "3" "t3")⟩,
       Except.ok (mkNewUser freshSignupInput "3" "t3")) :=
  ⟨(C9_signup witnessAuthState duplicateSignupInput "2" "t2").1
     ⟨witnessUser, by decide, by decide⟩,
   (C9_signup witnessAuthState freshSignupInput "3" "t3").2
     (by decide)⟩

/-- Claim C10: `unlockAchievement` leaves the gamification state unchanged
when the id is already unlocked or matches no defined achievement; for a
new valid id it appends the id exactly once and adds exactly that
achievement's points. -/
theorem C10_unlockAchievement (g : Gamification) (aid : String) :
    (g.achievements.contains aid = true → unlockAchievement g aid = g) ∧
    (ACHIEVEMENTS.find? (fun a => a.id == aid) = none →
      unlockAchievement g aid = g) ∧
    (∀ a, ACHIEVEMENTS.find? (fun a => a.id == aid) = some a →
      g.achievements.contains aid = false →
      unlockAchievement g aid =
        { g with achievements := g.achievements ++ [aid],
                 points := g.points + a.points } ∧
      (unlockAchievement g aid).achievements.count aid = 1) := by
  refine ⟨fun hin => ?_, fun hnone => ?_, fun a hfind hnotin => ?_⟩
  · have hmem : aid ∈ g.achievements := by simpa using hin
    unfold unlockAchievement
    cases hf : ACHIEVEMENTS.find? (fun a => a.id == aid)
    · rfl
    · simp [hmem]
  · simp [unlockAchievement, hnone]
  · have hnm : aid ∉ g.achievements := by simpa using hnotin
    have heq : unlockAchievement g aid =
        { g with achievements := g.achievements ++ [aid],
                 points := g.points + a.points } := by
      simp [unlockAchievement, hfind, hnm]
    refine ⟨heq, ?_⟩
    rw [heq]
    simp [List.count_append, List.count_eq_zero_of_not_mem hnm]

def lockedGamification : Gamification :=
  ⟨0, 1, [], 0, "2025-01-01", ⟨0, 0, 0, 0⟩⟩

def unlockedGamification : Gamification :=
  ⟨10, 1, ["first_scan"], 0, "2025-01-01", ⟨1, 0, 0, 0⟩⟩

/-- Witness for C10: re-unlocking "first_scan" and unlocking an unknown id
are no-ops; unlocking "first_scan" from a fresh state appends it once
and adds its 10 points. -/
theorem C10_unlockAchievement_witness :
    unlockAchievement unlockedGamification "first_scan" =
      unlockedGamification ∧
    unlockAchievement lockedGamification "no_such_badge" =
      lockedGamification ∧
    unlockAchievement lockedGamification "first_scan" =
      { lockedGamification with achievements := ["first_scan"],
                                points := 10 } :=
  ⟨(C10_unlockAchievement unlockedGamification "first_scan").1 (by decide),
   (C10_unlockAchievement lockedGamification "no_such_badge").2.1 (by decide),
   ((C10_unlockAchievement lockedGamification "first_scan").2.2
      ⟨"first_scan", "First Steps", "Scan your first product", 10, "🎯"⟩
      (by decide) (by decide)).1⟩

/-- Counterexample to claim C6 as stated: the repository's own API
contract (`docs/API.md`, `POST /api/scan/` response) documents the
confidence object with the three components
`overall`, `text_clarity`, `regulatory_compliance` — not the claimed
four; `fieldCompleteness` and `numericConsistency` appear in no
documented response. -/
theorem C6_counterexample :
    apiConfidenceComponents ≠ specConfidenceComponents ∧
    apiConfidenceComponents.length ≠ specConfidenceComponents.length ∧
    "fieldCompleteness" ∉ apiConfidenceComponents ∧
    "numericConsistency" ∉ apiConfidenceComponents := by
  decide

/-- Claim C6 (amended): the spec-modelled internal ConfidenceVector has
the four components textClarity, fieldCompleteness, numericConsistency
and overall, with `overall` a single fixed-weight linear combination
(0.4/0.3/0.3) whose weights sum to 1, and sub-scores in [0,1] give
`overall` in [0,1]; the confidence object documented by the repository's
API, however, exposes a different three-component shape (see the
counterexample). -/
theorem C6_confidence_vector (tc fc nc : ℚ)
    (h1 : 0 ≤ tc) (h2 : tc ≤ 1) (h3 : 0 ≤ fc) (h4 : fc ≤ 1)
    (h5 : 0 ≤ nc) (h6 : nc ≤ 1) :
    clarityWeight + completenessWeight + consistencyWeight = 1 ∧
    (mkConfidenceVector tc fc nc).textClarity = tc ∧
    (mkConfidenceVector tc fc nc).fieldCompleteness = fc ∧
    (mkConfidenceVector tc fc nc).numericConsistency = nc ∧
    (mkConfidenceVector tc fc nc).overall =
      clarityWeight * tc + completenessWeight * fc + consistencyWeight * nc ∧
    0 ≤ (mkConfidenceVector tc fc nc).overall ∧
    (mkConfidenceVector tc fc nc).overall ≤ 1 := by
  refine ⟨by norm_num [clarityWeight, completenessWeight, consistencyWeight],
    rfl, rfl, rfl, rfl, ?_, ?_⟩ <;>
    simp only [mkConfidenceVector, overallScore, clarityWeight,
      completenessWeight, consistencyWeight] <;>
    nlinarith

/-- Witness for C6 at sub-scores (0.9, 0.5, 1). -/
theorem C6_confidence_vector_witness :
    (mkConfidenceVector (9/10) (1/2) 1).overall =
      clarityWeight * (9/10) + completenessWeight * (1/2) +
        consistencyWeight * 1 ∧
    0 ≤ (mkConfidenceVector (9/10) (1/2) 1).overall ∧
    (mkConfidenceVector (9/10) (1/2) 1).overall ≤ 1 :=
  ⟨(C6_confidence_vector (9/10) (1/2) 1 (by norm_num) (by norm_num)
      (by norm_num) (by norm_num) (by norm_num) (by norm_num)).2.2.2.2.1,
   (C6_confidence_vector (9/10) (1/2) 1 (by norm_num) (by norm_num)
      (by norm_num) (by norm_num) (by norm_num) (by norm_num)).2.2.2.2.2.1,
   (C6_confidence_vector (9/10) (1/2) 1 (by norm_num) (by norm_num)
      (by norm_num) (by norm_num) (by norm_num) (by norm_num)).2.2.2.2.2.2⟩

/-- Claim C7 (code evaluated at the failing input): the scan-result
nutrition chip in `ScanPage.jsx` suffixes every nutrient except sodium
with "g", so calories render as "Calories: 250g" — grams, not the
canonical kcal — while sodium correctly renders "Sodium: 140mg" and
protein "Protein: 15g". -/
theorem C7_calories_chip_suffix :
    nutritionChipLabel "calories" 250 = "Calories: 250g" ∧
    nutritionChipLabel "sodium" 140 = "Sodium: 140mg" ∧
    nutritionChipLabel "protein" 15 = "Protein: 15g" := by
  decide

end PackCheck
